import Mathlib

/-!
Verification development for the ArrovBackend e-invoice gateway.

This file gives a shallow embedding of the credential cache
(`src/lib/tokenCache.js`, which contains two near-duplicate
implementations) and of the auth-and-IRN orchestration sections of the
generate-IRN and cancel-IRN route handlers
(`src/routes/generateIrnRoute.js`, `src/routes/cancelrnRoute.js`).

Modelling conventions:
* time is a natural number of milliseconds (`Date.now()` values);
* JavaScript `null`/`undefined` string fields are `Option String`, and
  JavaScript truthiness of a string field (`if (cache.accessToken)`)
  is `truthyStr`: a `some` holding a non-empty string;
* a `null` numeric timestamp compared with `>` coerces to `0` in
  JavaScript, modelled by `Option.getD 0`; truthiness of a numeric
  field is `truthyNat` (non-`null` and non-zero);
* each handler invocation is modelled at a single instant `now`
  (the successive `Date.now()` calls of one invocation are identified);
* remote responses already parsed from JSON are structure values; the
  network environment of an invocation supplies one response per
  endpoint; `JSON.stringify` of an unknown error object is abstracted
  as a `raw` string field carried by the object.
-/

/-- JavaScript truthiness of a nullable string field: non-null and non-empty. -/
def truthyStr : Option String → Bool
  | some s => !(s == "")
  | none => false

/-- JavaScript truthiness of a nullable numeric (timestamp) field. -/
def truthyNat : Option Nat → Bool
  | some n => !(n == 0)
  | none => false

/-- JavaScript `expiry > now` where a null expiry coerces to 0. -/
def jsGtNow (e : Option Nat) (now : Nat) : Bool :=
  decide (e.getD 0 > now)

/-- JavaScript `a || b` on a nullable string with a string fallback. -/
def jsOrStr (a : Option String) (b : String) : String :=
  if truthyStr a then a.getD "" else b

namespace TokenCache

/-! First implementation in `src/lib/tokenCache.js` (lines 1-66):
module-level `cache` object and the exported functions. -/

/-- The module-level `cache` object of the first implementation. -/
structure Cache where
  accessToken : Option String
  accessTokenExpiry : Option Nat
  authToken : Option String
  sek : Option String
  userName : Option String
  authTokenExpiry : Option Nat
deriving DecidableEq, Repr

/-- `const TOKEN_VALIDITY_MS = 360 * 60 * 1000` (first implementation). -/
def TOKEN_VALIDITY_MS : Nat := 360 * 60 * 1000

/-- `const FORCE_REFRESH_WINDOW_MS = 10 * 60 * 1000`. -/
def FORCE_REFRESH_WINDOW_MS : Nat := 10 * 60 * 1000

/-- The initializer of the `cache` object: every field null. -/
def initialCache : Cache :=
  ⟨none, none, none, none, none, none⟩

/-- `getAccessToken()`: returns the cached token only when the token is
truthy and `cache.accessTokenExpiry > Date.now()`. -/
def getAccessToken (c : Cache) (now : Nat) : Option String :=
  if truthyStr c.accessToken && jsGtNow c.accessTokenExpiry now then
    c.accessToken
  else
    none

/-- `setAccessToken(token)`: stores the token and sets
`accessTokenExpiry = Date.now() + TOKEN_VALIDITY_MS`. -/
def setAccessToken (c : Cache) (token : Option String) (now : Nat) : Cache :=
  { c with accessToken := token, accessTokenExpiry := some (now + TOKEN_VALIDITY_MS) }

/-- `shouldForceRefresh()`: false when no expiry is set (or it is 0, which
is falsy); otherwise `timeRemaining > 0 && timeRemaining <= FORCE_REFRESH_WINDOW_MS`. -/
def shouldForceRefresh (c : Cache) (now : Nat) : Bool :=
  if !truthyNat c.accessTokenExpiry then
    false
  else
    let timeRemaining := c.accessTokenExpiry.getD 0 - now
    decide (timeRemaining > 0) && decide (timeRemaining ≤ FORCE_REFRESH_WINDOW_MS)

/-- The object returned by `getAuthData()`; each field is returned verbatim
from the cache, so `sek`/`userName` may be null. -/
structure AuthData where
  authToken : Option String
  sek : Option String
  userName : Option String
deriving DecidableEq, Repr

/-- `getAuthData()`: guarded only by truthiness of `authToken`, truthiness of
`authTokenExpiry`, and `authTokenExpiry > Date.now()`. -/
def getAuthData (c : Cache) (now : Nat) : Option AuthData :=
  if truthyStr c.authToken && truthyNat c.authTokenExpiry
      && jsGtNow c.authTokenExpiry now then
    some ⟨c.authToken, c.sek, c.userName⟩
  else
    none

/-- `setAuthData(authToken, sek, userName)`. -/
def setAuthData (c : Cache) (authToken sek userName : Option String)
    (now : Nat) : Cache :=
  { c with
    authToken := authToken
    sek := sek
    userName := userName
    authTokenExpiry := some (now + TOKEN_VALIDITY_MS) }

/-- `clearTokenCache()`: nulls every field. -/
def clearTokenCache (_c : Cache) : Cache :=
  ⟨none, none, none, none, none, none⟩

/-! Trace semantics of access-token operations, for quantifying over
"every sequence of setAccessToken and clear operations". -/

/-- An access-token cache operation with the value it carries. -/
inductive CacheOp
  | set (token : Option String)
  | clear
deriving DecidableEq, Repr

/-- Apply one timestamped operation to the cache. -/
def applyOp (c : Cache) (op : Nat × CacheOp) : Cache :=
  match op.2 with
  | .set token => setAccessToken c token op.1
  | .clear => clearTokenCache c

/-- Run a timestamped operation sequence from the initial (empty) cache. -/
def runTrace (tr : List (Nat × CacheOp)) : Cache :=
  tr.foldl applyOp initialCache

/-- One step of the specification-side trace view: a `set` records its
time and value, a `clear` forgets any prior set. -/
def lastLiveSetStep (_acc : Option (Nat × Option String)) (op : Nat × CacheOp) :
    Option (Nat × Option String) :=
  match op.2 with
  | .set token => some (op.1, token)
  | .clear => none

/-- Specification-side view of a trace: the time and value of the last
`set` operation, unless a `clear` came after it. -/
def lastLiveSet (tr : List (Nat × CacheOp)) : Option (Nat × Option String) :=
  tr.foldl lastLiveSetStep none

end TokenCache

namespace TokenCache2

/-! Second implementation in `src/lib/tokenCache.js` (lines 67-129):
module-level `tokenCache` object; same shape, different constant. -/

/-- The module-level `tokenCache` object of the second implementation. -/
structure Cache where
  accessToken : Option String
  expiresAt : Option Nat
  authToken : Option String
  sek : Option String
  userName : Option String
  authExpiresAt : Option Nat
deriving DecidableEq, Repr

/-- `const TOKEN_VALIDITY_MS = 60 * 60 * 1000` (second implementation;
its comment still claims 360 minutes). -/
def TOKEN_VALIDITY_MS : Nat := 60 * 60 * 1000

/-- `const FORCE_REFRESH_THRESHOLD_MS = 10 * 60 * 1000`. -/
def FORCE_REFRESH_THRESHOLD_MS : Nat := 10 * 60 * 1000

/-- The initializer of the `tokenCache` object: every field null. -/
def initialCache : Cache :=
  ⟨none, none, none, none, none, none⟩

/-- `getAccessToken()` of the second implementation. -/
def getAccessToken (c : Cache) (now : Nat) : Option String :=
  if truthyStr c.accessToken && jsGtNow c.expiresAt now then
    c.accessToken
  else
    none

/-- `setAccessToken(token)` of the second implementation. -/
def setAccessToken (c : Cache) (token : Option String) (now : Nat) : Cache :=
  { c with accessToken := token, expiresAt := some (now + TOKEN_VALIDITY_MS) }

end TokenCache2

namespace Routes

/-! Embedding of the orchestration sections of
`src/routes/generateIrnRoute.js` (the token-cache-backed handler) and
`src/routes/cancelrnRoute.js` (the token-cache-backed handler).
Both routes use the first `tokenCache.js` implementation. -/

open TokenCache

/-- Parsed JSON body of the `authenticate` response.  On `status === 1`
the handler reads `data.accessToken`; on failure it reads
`errorMessage` / `message`. -/
structure AuthResponse where
  status : Int
  accessToken : Option String
  errorMessage : Option String
  message : Option String
deriving DecidableEq, Repr

/-- Parsed JSON body of the enhanced-authentication response.  On
`Status === 1` the handler reads `Data.AuthToken`, `Data.Sek`,
`Data.UserName`. -/
structure EnhResponse where
  Status : Int
  AuthToken : Option String
  Sek : Option String
  UserName : Option String
  ErrorMessage : Option String
  Message : Option String
deriving DecidableEq, Repr

/-- One element of an `ErrorDetails` / `ValidationErrors` array: either a
bare string or an object with optional `ErrorMessage`, `message` and
`ErrorCode` properties (`raw` abstracts `JSON.stringify(err)`). -/
inductive ErrItem
  | str (s : String)
  | obj (em : Option String) (msg : Option String) (ec : Option String) (raw : String)
deriving DecidableEq, Repr

/-- Parsed JSON body of the generate-IRN response. -/
structure IrnResponse where
  Irn : Option String
  SignedQRCode : Option String
  AckNo : Option String
  AckDt : Option String
  SignedInvoice : Option String
  Status : Option Int
  ErrorMessage : Option String
  ErrorCode : Option String
  ErrorDetails : Option (List ErrItem)
  errMessage : Option String
  ValidationErrors : Option (List ErrItem)
  message : Option String
deriving DecidableEq, Repr

/-- The per-element extraction inside the `ErrorDetails.map` /
`ValidationErrors.map` callbacks:
`if (typeof err === "string") return err; if (err.ErrorMessage) return
err.ErrorMessage; if (err.message) return err.message; return
JSON.stringify(err);`. -/
def extractMsg : ErrItem → String
  | .str s => s
  | .obj em msg _ raw =>
      if truthyStr em then em.getD ""
      else if truthyStr msg then msg.getD ""
      else raw

/-- `[...new Set(xs)]`: removes duplicates keeping the first occurrence. -/
def jsDedup : List String → List String :=
  go []
where
  go (seen : List String) : List String → List String
    | [] => []
    | x :: xs => if x ∈ seen then go seen xs else x :: go (x :: seen) xs

/-- `irnData.ErrorDetails && Array.isArray(...) && length > 0`. -/
def errorDetailsNonempty : Option (List ErrItem) → Bool
  | some (_ :: _) => true
  | _ => false

/-- `const firstError = irnData.ErrorDetails[0]; if (firstError &&
firstError.ErrorCode) errorCode = firstError.ErrorCode;`
(an out-of-range index and a bare-string element both yield null). -/
def firstErrorCode : List ErrItem → Option String
  | [] => none
  | .str _ :: _ => none
  | .obj _ _ ec _ :: _ => if truthyStr ec then ec else none

/-- Error normalization of a failed (null-`Irn`) generate-IRN response,
`src/routes/generateIrnRoute.js` lines 419-471: returns the `details`
string and the optional `errorCode`. -/
def normalizeIrnError (d : IrnResponse) : String × Option String :=
  if truthyStr d.ErrorMessage then
    (d.ErrorMessage.getD "", d.ErrorCode)
  else if errorDetailsNonempty d.ErrorDetails then
    let l := d.ErrorDetails.getD []
    (String.intercalate ", " (jsDedup (l.map extractMsg)), firstErrorCode l)
  else if truthyStr d.errMessage then
    (d.errMessage.getD "", none)
  else if d.ValidationErrors.isSome then
    (String.intercalate ", "
      (jsDedup ((d.ValidationErrors.getD []).map extractMsg)), none)
  else if truthyStr d.message then
    (d.message.getD "", none)
  else
    ("IRN generation was unsuccessful", none)

/-- The remote calls a handler invocation can issue. -/
inductive RemoteCall
  | authenticate
  | enhancedAuth
  | generateIrn
  | cancelIrn
deriving DecidableEq, Repr

/-- The network environment of one generate-IRN invocation: the parsed
response each endpoint would return if called. -/
structure Env where
  auth : AuthResponse
  enh : EnhResponse
  irn : IrnResponse
deriving DecidableEq, Repr

/-- Result of the IRN-generation section of the handler (before the
invoice insert). -/
inductive StageOutcome
  | authError (details : String)
  | enhAuthError (details : String)
  | irnError (details : String) (errorCode : Option String)
  | proceed (irnData : Option IrnResponse)
deriving DecidableEq, Repr

/-- Output of the IRN-generation section: remote calls issued, the cache
state afterwards, and the outcome. -/
structure StageOut where
  calls : List RemoteCall
  cache : Cache
  outcome : StageOutcome
deriving DecidableEq, Repr

/-- Step 3 of the generate route: issue the generate-IRN call; a falsy
`Irn` (`if (!irnData.Irn)`) is a failure normalized by
`normalizeIrnError`; otherwise the parsed response becomes `irnData`. -/
def genStep3 (calls : List RemoteCall) (c : Cache) (env : Env) : StageOut :=
  let calls := calls ++ [RemoteCall.generateIrn]
  if truthyStr env.irn.Irn then
    ⟨calls, c, .proceed (some env.irn)⟩
  else
    ⟨calls, c, .irnError (normalizeIrnError env.irn).1 (normalizeIrnError env.irn).2⟩

/-- Step 2 of the generate route: use cached auth data if present, else
compute `shouldForceRefresh()`, call enhanced authentication, fail
terminally on `Status !== 1`, else cache the session and continue. -/
def genStep2 (calls : List RemoteCall) (c : Cache) (now : Nat) (env : Env) :
    StageOut :=
  match getAuthData c now with
  | some _ => genStep3 calls c env
  | none =>
    let _forceRefresh := shouldForceRefresh c now
    if env.enh.Status ≠ 1 then
      ⟨calls ++ [RemoteCall.enhancedAuth], c,
        .enhAuthError
          (jsOrStr env.enh.ErrorMessage
            (jsOrStr env.enh.Message "Enhanced authentication failed"))⟩
    else
      genStep3 (calls ++ [RemoteCall.enhancedAuth])
        (setAuthData c env.enh.AuthToken env.enh.Sek env.enh.UserName now) env

/-- The IRN-generation section of the generate route
(`src/routes/generateIrnRoute.js` lines 186-491): skipped entirely for
`invoice_type === "NON BILLING"`; otherwise ensure an access token
(authenticate on cache miss, terminal failure on `status !== 1`), ensure
auth data, then generate the IRN. -/
def runIrnStage (invoiceType : String) (c : Cache) (now : Nat) (env : Env) :
    StageOut :=
  if invoiceType = "NON BILLING" then
    ⟨[], c, .proceed none⟩
  else
    match getAccessToken c now with
    | some _ => genStep2 [] c now env
    | none =>
      if env.auth.status ≠ 1 then
        ⟨[RemoteCall.authenticate], c,
          .authError
            (jsOrStr env.auth.errorMessage
              (jsOrStr env.auth.message "Failed to get access token"))⟩
      else
        genStep2 [RemoteCall.authenticate]
          (setAccessToken c env.auth.accessToken now) now env

/-- The IRN-derived columns of the invoice insert
(`...(irnData && { irn, qrcode, ack_no, ack_dt, signed_invoice,
einvoice_status: "GENERATED" })`); all absent when `irnData` is null. -/
structure InvoiceIrnColumns where
  irn : Option String
  qrcode : Option String
  ack_no : Option String
  ack_dt : Option String
  signed_invoice : Option String
  einvoice_status : Option String
deriving DecidableEq, Repr

/-- Build the IRN columns of `invoiceInsertData` from `irnData`
(`ack_dt` keeps the raw `AckDt` string when truthy; `new Date` parsing
is abstracted away). -/
def invoiceIrnColumns : Option IrnResponse → InvoiceIrnColumns
  | none => ⟨none, none, none, none, none, none⟩
  | some d =>
    ⟨d.Irn, d.SignedQRCode, d.AckNo,
      if truthyStr d.AckDt then d.AckDt else none,
      d.SignedInvoice, some "GENERATED"⟩

/-- The `irn` object of the success response
(`irn: { irn, qrcode, ack_no, status: "GENERATED" }`). -/
structure IrnSummary where
  irn : Option String
  qrcode : Option String
  ack_no : Option String
  status : String
deriving DecidableEq, Repr

/-- The HTTP response of the generate route, one constructor per
`res.…json(…)` site of the orchestration and persistence code.  Each
constructor carries exactly the data its JSON payload carries;
`invoiceCreationFailed` is
`res.status(500).json({ error: "Invoice creation failed", details })`. -/
inductive GenHttpResponse
  | authApiError (details : String)
  | enhAuthApiError (details : String)
  | irnFailed (details : String) (errorCode : Option String)
  | invoiceCreationFailed (details : String)
  | ok (irnColumns : InvoiceIrnColumns) (irn : Option IrnSummary)
deriving DecidableEq, Repr

/-- The tail of the generate-IRN handler: given the IRN-stage output,
either return its error response, or attempt the invoice insert
(`insertError` is the data store's answer) and build the response
(`...(irnData && { irn: {…} })`). -/
def finishGenerate (st : StageOut) (insertError : Option String) :
    GenHttpResponse × List RemoteCall × Cache :=
  match st.outcome with
  | .authError d => (.authApiError d, st.calls, st.cache)
  | .enhAuthError d => (.enhAuthApiError d, st.calls, st.cache)
  | .irnError d ec => (.irnFailed d ec, st.calls, st.cache)
  | .proceed irnData =>
    match insertError with
    | some e => (.invoiceCreationFailed e, st.calls, st.cache)
    | none =>
      let cols := invoiceIrnColumns irnData
      (.ok cols
        (irnData.map fun _ => ⟨cols.irn, cols.qrcode, cols.ack_no, "GENERATED"⟩),
        st.calls, st.cache)

/-- The generate-IRN handler from the start of the IRN section to the
response (`src/routes/generateIrnRoute.js` lines 186-610): the IRN
stage followed by the insert-and-respond tail. -/
def runGenerateHandler (invoiceType : String) (c : Cache) (now : Nat)
    (env : Env) (insertError : Option String) :
    GenHttpResponse × List RemoteCall × Cache :=
  finishGenerate (runIrnStage invoiceType c now env) insertError

/-- Parsed JSON body of the cancel-IRN response; the handler checks
`cancelData.Irn !== null` (not truthiness). -/
structure CancelResponse where
  Irn : Option String
  CancelDate : Option String
deriving DecidableEq, Repr

/-- The network environment of one cancel-IRN invocation. -/
structure CancelEnv where
  auth : AuthResponse
  enh : EnhResponse
  cancel : CancelResponse
deriving DecidableEq, Repr

/-- The HTTP response of the cancel route, one constructor per
`res.…json(…)` site after the lookups: on auth/enhanced-auth failure the
parsed upstream body is passed through; `recordFailed` is
`res.status(500).json({ status: 0, errorMessage: "Failed to record
cancellation", details })`; `cancelPassthrough` is `res.json(cancelData)`
(used both on success and when `Irn` is null). -/
inductive CancelHttpResponse
  | authPassthrough (a : AuthResponse)
  | enhPassthrough (e : EnhResponse)
  | recordFailed (details : String)
  | updateFailed (details : String)
  | cancelPassthrough (cd : CancelResponse)
deriving DecidableEq, Repr

/-- Step 3 of the cancel route: issue the cancel-IRN call; on
`Irn !== null` record the cancellation (`insertError`) then mark the
invoice cancelled (`updateError`); otherwise pass the body through. -/
def cancelStep3 (calls : List RemoteCall) (c : Cache) (env : CancelEnv)
    (insertError updateError : Option String) :
    CancelHttpResponse × List RemoteCall × Cache :=
  let calls := calls ++ [RemoteCall.cancelIrn]
  if env.cancel.Irn.isSome then
    match insertError with
    | some e => (.recordFailed e, calls, c)
    | none =>
      match updateError with
      | some e => (.updateFailed e, calls, c)
      | none => (.cancelPassthrough env.cancel, calls, c)
  else
    (.cancelPassthrough env.cancel, calls, c)

/-- Step 2 of the cancel route: cached auth data or enhanced
authentication (with `shouldForceRefresh()`), terminal on `Status !== 1`. -/
def cancelStep2 (calls : List RemoteCall) (c : Cache) (now : Nat)
    (env : CancelEnv) (insertError updateError : Option String) :
    CancelHttpResponse × List RemoteCall × Cache :=
  match getAuthData c now with
  | some _ => cancelStep3 calls c env insertError updateError
  | none =>
    let _forceRefresh := shouldForceRefresh c now
    if env.enh.Status ≠ 1 then
      (.enhPassthrough env.enh, calls ++ [RemoteCall.enhancedAuth], c)
    else
      cancelStep3 (calls ++ [RemoteCall.enhancedAuth])
        (setAuthData c env.enh.AuthToken env.enh.Sek env.enh.UserName now)
        env insertError updateError

/-- The cancel-IRN handler from the access-token step to the response
(`src/routes/cancelrnRoute.js` lines 308-487). -/
def runCancelHandler (c : Cache) (now : Nat) (env : CancelEnv)
    (insertError updateError : Option String) :
    CancelHttpResponse × List RemoteCall × Cache :=
  match getAccessToken c now with
  | some _ => cancelStep2 [] c now env insertError updateError
  | none =>
    if env.auth.status ≠ 1 then
      (.authPassthrough env.auth, [RemoteCall.authenticate], c)
    else
      cancelStep2 [RemoteCall.authenticate]
        (setAccessToken c env.auth.accessToken now) now env
        insertError updateError

end Routes

namespace TokenCache

/-- Token view of a `lastLiveSet` accumulator. -/
def liveTok : Option (Nat × Option String) → Option String
  | some (_, tok) => tok
  | none => none

/-- Expiry view of a `lastLiveSet` accumulator. -/
def liveExp : Option (Nat × Option String) → Option Nat
  | some (t, _) => some (t + TOKEN_VALIDITY_MS)
  | none => none

theorem foldl_applyOp_fields (tr : List (Nat × CacheOp)) :
    ∀ (c : Cache) (acc : Option (Nat × Option String)),
      c.accessToken = liveTok acc → c.accessTokenExpiry = liveExp acc →
      (tr.foldl applyOp c).accessToken = liveTok (tr.foldl lastLiveSetStep acc) ∧
      (tr.foldl applyOp c).accessTokenExpiry = liveExp (tr.foldl lastLiveSetStep acc) := by
  induction tr with
  | nil => intro c acc h1 h2; exact ⟨h1, h2⟩
  | cons hd tl ih =>
      intro c acc h1 h2
      simp only [List.foldl_cons]
      cases hop : hd.2 with
      | set token =>
          exact ih _ _ (by simp [applyOp, hop, setAccessToken, lastLiveSetStep, liveTok])
            (by simp [applyOp, hop, setAccessToken, lastLiveSetStep, liveExp])
      | clear =>
          exact ih _ _ (by simp [applyOp, hop, clearTokenCache, lastLiveSetStep, liveTok])
            (by simp [applyOp, hop, clearTokenCache, lastLiveSetStep, liveExp])

theorem runTrace_fields (tr : List (Nat × CacheOp)) :
    (runTrace tr).accessToken = liveTok (lastLiveSet tr) ∧
    (runTrace tr).accessTokenExpiry = liveExp (lastLiveSet tr) :=
  foldl_applyOp_fields tr initialCache none rfl rfl

theorem getAccessToken_isSome_iff (c : Cache) (q : Nat) :
    (getAccessToken c q).isSome = true ↔
      ∃ s, c.accessToken = some s ∧ s ≠ "" ∧ c.accessTokenExpiry.getD 0 > q := by
  unfold getAccessToken
  cases hA : c.accessToken with
  | none => simp [truthyStr]
  | some s =>
      simp only [truthyStr, jsGtNow]
      split
      · rename_i hcond
        simp only [Bool.and_eq_true, Bool.not_eq_eq_eq_not, Bool.not_true,
          beq_eq_false_iff_ne, ne_eq, decide_eq_true_eq] at hcond
        exact iff_of_true rfl ⟨s, rfl, hcond.1, hcond.2⟩
      · rename_i hcond
        refine iff_of_false (by simp) ?_
        rintro ⟨s', hss', hs', hq'⟩
        cases Option.some.inj hss'
        exact hcond (by simp [hs', hq'])

end TokenCache

/-- C1 (amended).  After any sequence of timestamped `setAccessToken` /
`clearTokenCache` operations starting from the empty cache,
`getAccessToken()` at query time `q` returns a token if and only if the
last surviving operation was a `set` of a truthy (non-null, non-empty)
token strictly less than `TOKEN_VALIDITY_MS` before `q`; a falsy token
value is treated as absent even inside the validity window. -/
theorem C1_getAccessToken_iff_recent_truthy_set
    (tr : List (Nat × TokenCache.CacheOp)) (q : Nat) :
    (TokenCache.getAccessToken (TokenCache.runTrace tr) q).isSome = true ↔
      ∃ t s, TokenCache.lastLiveSet tr = some (t, some s) ∧ s ≠ "" ∧
        q - t < TokenCache.TOKEN_VALIDITY_MS := by
  obtain ⟨hTok, hExp⟩ := TokenCache.runTrace_fields tr
  rw [TokenCache.getAccessToken_isSome_iff, hTok, hExp]
  have hV : TokenCache.TOKEN_VALIDITY_MS = 21600000 := rfl
  cases hl : TokenCache.lastLiveSet tr with
  | none => simp [TokenCache.liveTok, TokenCache.liveExp]
  | some p =>
      obtain ⟨t, tok⟩ := p
      simp only [TokenCache.liveTok, TokenCache.liveExp, Option.getD_some]
      constructor
      · rintro ⟨s, hts, hs, hq⟩
        exact ⟨t, s, by rw [hts], hs, by omega⟩
      · rintro ⟨t', s, heq, hs, hq⟩
        injection heq with h
        injection h with h1 h2
        subst h1
        exact ⟨s, h2, hs, by omega⟩

/-- C1 witness: a non-empty token set at time 0 is returned at time 5. -/
theorem C1_witness :
    (TokenCache.getAccessToken
      (TokenCache.runTrace [(0, TokenCache.CacheOp.set (some "tok"))]) 5).isSome = true :=
  (C1_getAccessToken_iff_recent_truthy_set _ 5).mpr
    ⟨0, "tok", by decide, by decide, by decide⟩

/-- C1 counterexample: the claim as stated is false.  The trace sets the
token (to the empty string) at time 0 and queries at time 0 — set
strictly less than `TOKEN_VALIDITY_MS` ago with no clear in between —
yet `getAccessToken()` returns null, because the code tests JavaScript
truthiness of the cached value. -/
theorem C1_counterexample :
    ¬ ((TokenCache.getAccessToken
          (TokenCache.runTrace [(0, TokenCache.CacheOp.set (some ""))]) 0).isSome = true ↔
        ∃ t tok,
          TokenCache.lastLiveSet [(0, TokenCache.CacheOp.set (some ""))] = some (t, tok) ∧
          0 - t < TokenCache.TOKEN_VALIDITY_MS) := by
  intro h
  exact absurd (h.mpr ⟨0, some "", by decide, by decide⟩) (by decide)

/-- C2 (amended).  `shouldForceRefresh()` after `setAccessToken` at time
`ts` is true at query time `q` exactly when the elapsed time `q - ts`
lies in the half-open interval
`[TOKEN_VALIDITY_MS - FORCE_REFRESH_WINDOW_MS, TOKEN_VALIDITY_MS)` —
the lower endpoint included — and it is false when no token was ever
cached (already-expired and comfortably-valid times fall outside the
interval). -/
theorem C2_shouldForceRefresh_window (c : TokenCache.Cache)
    (tok : Option String) (ts q : Nat) :
    TokenCache.shouldForceRefresh (TokenCache.setAccessToken c tok ts) q =
      (decide (TokenCache.TOKEN_VALIDITY_MS - TokenCache.FORCE_REFRESH_WINDOW_MS ≤ q - ts)
        && decide (q - ts < TokenCache.TOKEN_VALIDITY_MS)) ∧
    TokenCache.shouldForceRefresh TokenCache.initialCache q = false := by
  constructor
  · have h0 : ts + TokenCache.TOKEN_VALIDITY_MS ≠ 0 := by
      simp [TokenCache.TOKEN_VALIDITY_MS]
    have hb : ((ts + TokenCache.TOKEN_VALIDITY_MS : Nat) == 0) = false := by
      simpa using h0
    unfold TokenCache.shouldForceRefresh TokenCache.setAccessToken
    simp only [truthyNat, Option.getD_some, hb, Bool.not_false, Bool.not_true,
      Bool.false_eq_true, if_false]
    rw [Bool.eq_iff_iff]
    simp only [Bool.and_eq_true, decide_eq_true_eq]
    have hV : TokenCache.TOKEN_VALIDITY_MS = 21600000 := rfl
    have hF : TokenCache.FORCE_REFRESH_WINDOW_MS = 600000 := rfl
    omega
  · rfl

/-- C2 counterexample: at elapsed time exactly
`TOKEN_VALIDITY_MS - FORCE_REFRESH_WINDOW_MS` (350 minutes) the code
returns true, while the claim's open interval
`(TOKEN_VALIDITY_MS - FORCE_REFRESH_WINDOW_MS, TOKEN_VALIDITY_MS)`
excludes that elapsed time. -/
theorem C2_counterexample :
    TokenCache.shouldForceRefresh
      (TokenCache.setAccessToken TokenCache.initialCache (some "t") 0) 21000000 = true ∧
    ¬ (TokenCache.TOKEN_VALIDITY_MS - TokenCache.FORCE_REFRESH_WINDOW_MS
        < 21000000 - (0 : Nat)) :=
  ⟨by decide, by decide⟩

/-- C7 (amended).  `getAuthData()` returns absent unless `authToken` is
truthy and the expiry is set and unexpired; it does not inspect `sek`
or `userName`, so a cached session whose `sek` and `userName` are unset
is still returned as long as `authToken` is set and unexpired. -/
theorem C7_getAuthData_guard :
    (∀ (c : TokenCache.Cache) (now : Nat), c.authToken = none →
      TokenCache.getAuthData c now = none) ∧
    (∀ (c : TokenCache.Cache) (now : Nat), c.authTokenExpiry = none →
      TokenCache.getAuthData c now = none) ∧
    (∀ (c : TokenCache.Cache) (now : Nat) (ad : TokenCache.AuthData),
      TokenCache.getAuthData c now = some ad →
      truthyStr c.authToken = true ∧ c.authTokenExpiry.getD 0 > now ∧
      ad = ⟨c.authToken, c.sek, c.userName⟩) ∧
    TokenCache.getAuthData
      (TokenCache.setAuthData TokenCache.initialCache (some "a") none none 0) 0 =
      some ⟨some "a", none, none⟩ := by
  refine ⟨?_, ?_, ?_, rfl⟩
  · intro c now h
    unfold TokenCache.getAuthData
    simp [h, truthyStr]
  · intro c now h
    unfold TokenCache.getAuthData
    simp [h, truthyNat]
  · intro c now ad h
    unfold TokenCache.getAuthData at h
    split at h
    · rename_i hcond
      simp only [Bool.and_eq_true] at hcond
      obtain ⟨⟨h1, _h2⟩, h3⟩ := hcond
      refine ⟨h1, ?_, (Option.some.inj h).symm⟩
      simpa [jsGtNow] using h3
    · exact absurd h (by simp)

/-- C7 witness: on the empty cache `getAuthData()` is absent. -/
theorem C7_witness : TokenCache.getAuthData TokenCache.initialCache 0 = none :=
  C7_getAuthData_guard.1 TokenCache.initialCache 0 rfl

/-- C7 counterexample: the claim as stated is false.  After
`setAuthData("a", null, null)` the `sek` field is unset, yet
`getAuthData()` immediately returns a (non-absent) session object —
the code only checks `authToken` and the expiry, not the other two
fields. -/
theorem C7_counterexample :
    (TokenCache.setAuthData TokenCache.initialCache (some "a") none none 0).sek = none ∧
    TokenCache.getAuthData
      (TokenCache.setAuthData TokenCache.initialCache (some "a") none none 0) 0 ≠ none :=
  ⟨rfl, by decide⟩

/-- C8 (amended).  For every truthy (non-empty) `a` and arbitrary `b`,
`c`: storing via `setAuthData(a, b, c)` and immediately reading via
`getAuthData()` returns exactly `{authToken: a, sek: b, userName: c}`. -/
theorem C8_setAuthData_roundTrip (a : String) (b c : Option String) (t : Nat)
    (ha : a ≠ "") :
    TokenCache.getAuthData
      (TokenCache.setAuthData TokenCache.initialCache (some a) b c t) t =
      some ⟨some a, b, c⟩ := by
  have h1 : truthyStr (some a) = true := by simpa [truthyStr] using ha
  have h2 : truthyNat (some (t + TokenCache.TOKEN_VALIDITY_MS)) = true := by
    simp [truthyNat, TokenCache.TOKEN_VALIDITY_MS]
  have h3 : jsGtNow (some (t + TokenCache.TOKEN_VALIDITY_MS)) t = true := by
    simp [jsGtNow, TokenCache.TOKEN_VALIDITY_MS]
  unfold TokenCache.getAuthData TokenCache.setAuthData
  simp [h1, h2, h3]

/-- C8 witness: the round trip at concrete values. -/
theorem C8_witness :
    TokenCache.getAuthData
      (TokenCache.setAuthData TokenCache.initialCache
        (some "x") (some "s") (some "u") 0) 0 =
      some ⟨some "x", some "s", some "u"⟩ :=
  C8_setAuthData_roundTrip "x" (some "s") (some "u") 0 (by decide)

/-- C8 counterexample: the claim as stated (for all values `a`, `b`,
`c`) is false.  Storing the falsy value `a = ""` and reading
immediately returns absent, not `{authToken: "", sek: "s",
userName: "u"}`, because `getAuthData()` tests JavaScript truthiness of
`authToken`. -/
theorem C8_counterexample :
    TokenCache.getAuthData
      (TokenCache.setAuthData TokenCache.initialCache
        (some "") (some "s") (some "u") 0) 0 = none := by
  decide

/-- C9 (amended).  The two token-cache implementations are not
equivalent: the first sets `TOKEN_VALIDITY_MS` to 360 minutes and the
second to 60 minutes, so for any truthy (non-empty) token set at time
`t` the two `getAccessToken` functions disagree at every query time
whose elapsed time lies in `[60 min, 360 min)`: the first still returns
the token while the second returns null. -/
theorem C9_implementations_disagree :
    TokenCache.TOKEN_VALIDITY_MS = 360 * 60 * 1000 ∧
    TokenCache2.TOKEN_VALIDITY_MS = 60 * 60 * 1000 ∧
    ∀ (s : String) (t e : Nat), s ≠ "" →
      60 * 60 * 1000 ≤ e → e < 360 * 60 * 1000 →
      TokenCache.getAccessToken
        (TokenCache.setAccessToken TokenCache.initialCache (some s) t) (t + e) = some s ∧
      TokenCache2.getAccessToken
        (TokenCache2.setAccessToken TokenCache2.initialCache (some s) t) (t + e) = none := by
  refine ⟨rfl, rfl, ?_⟩
  intro s t e hs h1 h2
  constructor
  · have hgt : t + TokenCache.TOKEN_VALIDITY_MS > t + e := by
      have hV : TokenCache.TOKEN_VALIDITY_MS = 21600000 := rfl
      omega
    simp [TokenCache.getAccessToken, TokenCache.setAccessToken, jsGtNow,
      truthyStr, hs, hgt]
  · have hle : ¬ (t + TokenCache2.TOKEN_VALIDITY_MS > t + e) := by
      have hV : TokenCache2.TOKEN_VALIDITY_MS = 3600000 := rfl
      omega
    simp [TokenCache2.getAccessToken, TokenCache2.setAccessToken, jsGtNow, hle]

/-- C9 witness: at elapsed time exactly 60 minutes the first
implementation still returns the token and the second does not. -/
theorem C9_witness :
    TokenCache.getAccessToken
      (TokenCache.setAccessToken TokenCache.initialCache (some "tok") 0) 3600000 =
      some "tok" ∧
    TokenCache2.getAccessToken
      (TokenCache2.setAccessToken TokenCache2.initialCache (some "tok") 0) 3600000 =
      none :=
  C9_implementations_disagree.2.2 "tok" 0 3600000 (by decide) (by decide) (by decide)

/-- C9 counterexample: the claim as stated quantifies over any token
set at time `t`; for the falsy token `""` both implementations return
null at elapsed time 60 minutes — they agree, so they do not disagree
for *every* token at every elapsed time in `[60 min, 360 min)`. -/
theorem C9_counterexample :
    TokenCache.getAccessToken
      (TokenCache.setAccessToken TokenCache.initialCache (some "") 0) 3600000 = none ∧
    TokenCache2.getAccessToken
      (TokenCache2.setAccessToken TokenCache2.initialCache (some "") 0) 3600000 = none :=
  ⟨by decide, by decide⟩

namespace Routes

theorem genStep3_calls_cache (calls : List RemoteCall) (c : TokenCache.Cache)
    (env : Env) :
    (genStep3 calls c env).calls = calls ++ [RemoteCall.generateIrn] ∧
    (genStep3 calls c env).cache = c := by
  unfold genStep3
  split <;> exact ⟨rfl, rfl⟩

theorem runIrnStage_cached (it : String) (c : TokenCache.Cache) (now : Nat)
    (env : Env) (hIt : it ≠ "NON BILLING")
    (hA : (TokenCache.getAccessToken c now).isSome = true)
    (hD : (TokenCache.getAuthData c now).isSome = true) :
    runIrnStage it c now env = genStep3 [] c env := by
  obtain ⟨tok, hA'⟩ := Option.isSome_iff_exists.mp hA
  obtain ⟨ad, hD'⟩ := Option.isSome_iff_exists.mp hD
  unfold runIrnStage genStep2
  rw [if_neg hIt, hA', hD']

theorem finishGenerate_snd (st : StageOut) (ie : Option String) :
    (finishGenerate st ie).2 = (st.calls, st.cache) := by
  rcases st with ⟨calls, cache2, outcome⟩
  cases outcome <;> try rfl
  cases ie <;> rfl

theorem runGenerateHandler_snd (it : String) (c : TokenCache.Cache) (now : Nat)
    (env : Env) (ie : Option String) :
    (runGenerateHandler it c now env ie).2 =
      ((runIrnStage it c now env).calls, (runIrnStage it c now env).cache) := by
  unfold runGenerateHandler
  exact finishGenerate_snd _ _

theorem runGenerateHandler_insertError (it : String) (c : TokenCache.Cache)
    (now : Nat) (env : Env) (e : String) (irnData : Option IrnResponse)
    (hOut : (runIrnStage it c now env).outcome = StageOutcome.proceed irnData) :
    (runGenerateHandler it c now env (some e)).1 =
      GenHttpResponse.invoiceCreationFailed e := by
  unfold runGenerateHandler finishGenerate
  rw [hOut]

theorem cancelStep3_calls_cache (calls : List RemoteCall) (c : TokenCache.Cache)
    (env : CancelEnv) (ci cu : Option String) :
    (cancelStep3 calls c env ci cu).2 = (calls ++ [RemoteCall.cancelIrn], c) := by
  unfold cancelStep3
  split
  · cases ci
    · cases cu <;> rfl
    · rfl
  · rfl

theorem runCancelHandler_cached (c : TokenCache.Cache) (now : Nat)
    (env : CancelEnv) (ci cu : Option String)
    (hA : (TokenCache.getAccessToken c now).isSome = true)
    (hD : (TokenCache.getAuthData c now).isSome = true) :
    runCancelHandler c now env ci cu = cancelStep3 [] c env ci cu := by
  obtain ⟨tok, hA'⟩ := Option.isSome_iff_exists.mp hA
  obtain ⟨ad, hD'⟩ := Option.isSome_iff_exists.mp hD
  unfold runCancelHandler cancelStep2
  rw [hA', hD']

end Routes

/-- C3 (confirmed).  When the generate-IRN handler has no cached access
token and the authenticate call answers with a status other than 1, the
handler returns the structured authentication error immediately:
the only remote call issued is `authenticate` (enhanced authentication
and generate-IRN are never called), and the credential cache is
returned unchanged — in particular a previously empty cache remains
empty. -/
theorem C3_auth_failure_is_terminal (it : String) (c : TokenCache.Cache)
    (now : Nat) (env : Routes.Env) (ie : Option String)
    (hIt : it ≠ "NON BILLING")
    (hMiss : TokenCache.getAccessToken c now = none)
    (hStatus : env.auth.status ≠ 1) :
    Routes.runGenerateHandler it c now env ie =
      (Routes.GenHttpResponse.authApiError
        (jsOrStr env.auth.errorMessage
          (jsOrStr env.auth.message "Failed to get access token")),
       [Routes.RemoteCall.authenticate], c) := by
  have hst : Routes.runIrnStage it c now env =
      ⟨[Routes.RemoteCall.authenticate], c,
        Routes.StageOutcome.authError
          (jsOrStr env.auth.errorMessage
            (jsOrStr env.auth.message "Failed to get access token"))⟩ := by
    unfold Routes.runIrnStage
    rw [if_neg hIt, hMiss, if_pos hStatus]
  unfold Routes.runGenerateHandler
  rw [hst]
  rfl

/-- C3 witness: empty cache, authenticate answers status 0. -/
theorem C3_witness :
    Routes.runGenerateHandler "B2B" TokenCache.initialCache 0
      ⟨⟨0, none, some "bad credentials", none⟩,
       ⟨1, none, none, none, none, none⟩,
       ⟨none, none, none, none, none, none, none, none, none, none, none, none⟩⟩
      none =
      (Routes.GenHttpResponse.authApiError "bad credentials",
       [Routes.RemoteCall.authenticate], TokenCache.initialCache) :=
  C3_auth_failure_is_terminal "B2B" TokenCache.initialCache 0 _ none
    (by decide) (by decide) (by decide)

/-- C4 (confirmed).  For a failed (null-`Irn`) generate-IRN response the
normalized error message is produced by trying the error-field paths in
the fixed precedence order `ErrorMessage`, then a non-empty
`ErrorDetails` array (messages extracted per element, deduplicated
keeping first occurrences, joined with `", "`), then `errorMessage`,
then a `ValidationErrors` array (same extraction, deduplication and
join), then `message`, then the generic fallback string; in particular
the duplicate-`ErrorDetails` response of Scenario C normalizes to
exactly `"Duplicate IRN"`. -/
theorem C4_error_normalization_precedence :
    (∀ d : Routes.IrnResponse, truthyStr d.ErrorMessage = true →
      Routes.normalizeIrnError d = (d.ErrorMessage.getD "", d.ErrorCode)) ∧
    (∀ d : Routes.IrnResponse, truthyStr d.ErrorMessage = false →
      Routes.errorDetailsNonempty d.ErrorDetails = true →
      Routes.normalizeIrnError d =
        (String.intercalate ", "
          (Routes.jsDedup ((d.ErrorDetails.getD []).map Routes.extractMsg)),
         Routes.firstErrorCode (d.ErrorDetails.getD []))) ∧
    (∀ d : Routes.IrnResponse, truthyStr d.ErrorMessage = false →
      Routes.errorDetailsNonempty d.ErrorDetails = false →
      truthyStr d.errMessage = true →
      Routes.normalizeIrnError d = (d.errMessage.getD "", none)) ∧
    (∀ d : Routes.IrnResponse, truthyStr d.ErrorMessage = false →
      Routes.errorDetailsNonempty d.ErrorDetails = false →
      truthyStr d.errMessage = false →
      d.ValidationErrors.isSome = true →
      Routes.normalizeIrnError d =
        (String.intercalate ", "
          (Routes.jsDedup ((d.ValidationErrors.getD []).map Routes.extractMsg)),
         none)) ∧
    (∀ d : Routes.IrnResponse, truthyStr d.ErrorMessage = false →
      Routes.errorDetailsNonempty d.ErrorDetails = false →
      truthyStr d.errMessage = false →
      d.ValidationErrors.isSome = false →
      truthyStr d.message = true →
      Routes.normalizeIrnError d = (d.message.getD "", none)) ∧
    (∀ d : Routes.IrnResponse, truthyStr d.ErrorMessage = false →
      Routes.errorDetailsNonempty d.ErrorDetails = false →
      truthyStr d.errMessage = false →
      d.ValidationErrors.isSome = false →
      truthyStr d.message = false →
      Routes.normalizeIrnError d = ("IRN generation was unsuccessful", none)) ∧
    Routes.normalizeIrnError
      ⟨none, none, none, none, none, none, none, none,
       some [Routes.ErrItem.obj (some "Duplicate IRN") none none "",
             Routes.ErrItem.obj (some "Duplicate IRN") none none ""],
       none, none, none⟩ = ("Duplicate IRN", none) := by
  refine ⟨?_, ?_, ?_, ?_, ?_, ?_, by decide⟩
  · intro d h1
    unfold Routes.normalizeIrnError
    rw [if_pos h1]
  · intro d h1 h2
    unfold Routes.normalizeIrnError
    rw [if_neg (by simp [h1]), if_pos h2]
  · intro d h1 h2 h3
    unfold Routes.normalizeIrnError
    rw [if_neg (by simp [h1]), if_neg (by simp [h2]), if_pos h3]
  · intro d h1 h2 h3 h4
    unfold Routes.normalizeIrnError
    rw [if_neg (by simp [h1]), if_neg (by simp [h2]), if_neg (by simp [h3]),
      if_pos h4]
  · intro d h1 h2 h3 h4 h5
    unfold Routes.normalizeIrnError
    rw [if_neg (by simp [h1]), if_neg (by simp [h2]), if_neg (by simp [h3]),
      if_neg (by simp [h4]), if_pos h5]
  · intro d h1 h2 h3 h4 h5
    unfold Routes.normalizeIrnError
    rw [if_neg (by simp [h1]), if_neg (by simp [h2]), if_neg (by simp [h3]),
      if_neg (by simp [h4]), if_neg (by simp [h5])]

/-- C4 witness: a root-level `ErrorMessage` wins with its error code. -/
theorem C4_witness :
    Routes.normalizeIrnError
      ⟨none, none, none, none, none, none, some "boom", some "E1",
       some [Routes.ErrItem.str "ignored"], none, none, none⟩ =
      ("boom", some "E1") :=
  C4_error_normalization_precedence.1 _ (by decide)

/-- C5 (amended).  When the upstream IRN operation succeeds (non-null
`Irn`) but the subsequent data-store write fails, the handler returns
only the persistence error: the generate route answers
`{ error: "Invoice creation failed", details }` and the cancel route
answers `{ status: 0, errorMessage: "Failed to record cancellation",
details }` — neither response includes the obtained upstream IRN data,
so the partial success is not surfaced.  (Stated here on the
cached-credential path of Scenarios C/D.) -/
theorem C5_persistence_failure_returns_only_error
    (it : String) (c : TokenCache.Cache) (now : Nat) (env : Routes.Env)
    (cenv : Routes.CancelEnv) (e : String) (ue : Option String)
    (hIt : it ≠ "NON BILLING")
    (hA : (TokenCache.getAccessToken c now).isSome = true)
    (hD : (TokenCache.getAuthData c now).isSome = true)
    (hIrn : truthyStr env.irn.Irn = true)
    (hCancel : cenv.cancel.Irn.isSome = true) :
    (Routes.runGenerateHandler it c now env (some e)).1 =
      Routes.GenHttpResponse.invoiceCreationFailed e ∧
    (Routes.runCancelHandler c now cenv (some e) ue).1 =
      Routes.CancelHttpResponse.recordFailed e := by
  constructor
  · apply Routes.runGenerateHandler_insertError it c now env e (some env.irn)
    rw [Routes.runIrnStage_cached it c now env hIt hA hD]
    unfold Routes.genStep3
    rw [if_pos hIrn]
  · rw [Routes.runCancelHandler_cached c now cenv (some e) ue hA hD]
    unfold Routes.cancelStep3
    rw [if_pos hCancel]

/-- C5 witness: concrete cached credentials, a successful upstream
response, and a failing insert. -/
theorem C5_witness :
    (Routes.runGenerateHandler "B2B"
      ⟨some "tok", some 1, some "at", some "sk", some "un", some 1⟩ 0
      ⟨⟨1, some "tok", none, none⟩, ⟨1, some "at", some "sk", some "un", none, none⟩,
       ⟨some "IRN123", some "qr", some "A1", none, none, none, none, none, none,
        none, none, none⟩⟩
      (some "db down")).1 =
      Routes.GenHttpResponse.invoiceCreationFailed "db down" ∧
    (Routes.runCancelHandler
      ⟨some "tok", some 1, some "at", some "sk", some "un", some 1⟩ 0
      ⟨⟨1, some "tok", none, none⟩, ⟨1, some "at", some "sk", some "un", none, none⟩,
       ⟨some "IRN123", some "2024-01-01"⟩⟩
      (some "db down") none).1 =
      Routes.CancelHttpResponse.recordFailed "db down" :=
  C5_persistence_failure_returns_only_error "B2B"
    ⟨some "tok", some 1, some "at", some "sk", some "un", some 1⟩ 0
    ⟨⟨1, some "tok", none, none⟩, ⟨1, some "at", some "sk", some "un", none, none⟩,
     ⟨some "IRN123", some "qr", some "A1", none, none, none, none, none, none,
      none, none, none⟩⟩
    ⟨⟨1, some "tok", none, none⟩, ⟨1, some "at", some "sk", some "un", none, none⟩,
     ⟨some "IRN123", some "2024-01-01"⟩⟩
    "db down" none (by decide) (by decide) (by decide) (by decide) (by decide)

/-- C5 counterexample: the claim as stated is false.  In Scenario D the
cancel-IRN response is `{Irn: "IRN123", CancelDate: "2024-01-01"}` (an
upstream success) and the `canceled_invoices` insert fails; the
handler's entire response is `recordFailed "insert failed"`, i.e.
`res.status(500).json({ status: 0, errorMessage: "Failed to record
cancellation", details })`, which carries only the persistence error —
the upstream IRN data (`Irn`, `CancelDate`) appears nowhere in the
result, so the caller is not given the partial success. -/
theorem C5_counterexample :
    (Routes.runCancelHandler
      ⟨some "tok", some 1, some "at", some "sk", some "un", some 1⟩ 0
      ⟨⟨1, some "tok", none, none⟩, ⟨1, some "at", some "sk", some "un", none, none⟩,
       ⟨some "IRN123", some "2024-01-01"⟩⟩
      (some "insert failed") none) =
      (Routes.CancelHttpResponse.recordFailed "insert failed",
       [Routes.RemoteCall.cancelIrn],
       ⟨some "tok", some 1, some "at", some "sk", some "un", some 1⟩) := by
  decide

/-- C6 (confirmed).  With both cached credentials valid at the
invocation times, two consecutive invocations of either orchestrating
handler perform zero authenticate and zero enhanced-authentication
remote calls: each invocation issues exactly the target operation call
(generate-IRN resp. cancel-IRN), and the first invocation leaves the
cache unchanged, so the second starts from the same state. -/
theorem C6_cached_credentials_only_target_call
    (it : String) (c : TokenCache.Cache) (t1 t2 : Nat)
    (env1 env2 : Routes.Env) (ie1 ie2 : Option String)
    (cenv1 cenv2 : Routes.CancelEnv) (ci1 cu1 ci2 cu2 : Option String)
    (hIt : it ≠ "NON BILLING")
    (hA1 : (TokenCache.getAccessToken c t1).isSome = true)
    (hD1 : (TokenCache.getAuthData c t1).isSome = true)
    (hA2 : (TokenCache.getAccessToken c t2).isSome = true)
    (hD2 : (TokenCache.getAuthData c t2).isSome = true) :
    ((Routes.runGenerateHandler it c t1 env1 ie1).2.1 =
        [Routes.RemoteCall.generateIrn] ∧
      (Routes.runGenerateHandler it c t1 env1 ie1).2.2 = c ∧
      (Routes.runGenerateHandler it c t2 env2 ie2).2.1 =
        [Routes.RemoteCall.generateIrn]) ∧
    ((Routes.runCancelHandler c t1 cenv1 ci1 cu1).2.1 =
        [Routes.RemoteCall.cancelIrn] ∧
      (Routes.runCancelHandler c t1 cenv1 ci1 cu1).2.2 = c ∧
      (Routes.runCancelHandler c t2 cenv2 ci2 cu2).2.1 =
        [Routes.RemoteCall.cancelIrn]) := by
  have hgen : ∀ (t : Nat) (env : Routes.Env) (ie : Option String),
      (TokenCache.getAccessToken c t).isSome = true →
      (TokenCache.getAuthData c t).isSome = true →
      (Routes.runGenerateHandler it c t env ie).2 =
        ([Routes.RemoteCall.generateIrn], c) := by
    intro t env ie hA hD
    rw [Routes.runGenerateHandler_snd, Routes.runIrnStage_cached it c t env hIt hA hD]
    obtain ⟨h1, h2⟩ := Routes.genStep3_calls_cache [] c env
    rw [h1, h2]
    rfl
  have hcan : ∀ (t : Nat) (cenv : Routes.CancelEnv) (ci cu : Option String),
      (TokenCache.getAccessToken c t).isSome = true →
      (TokenCache.getAuthData c t).isSome = true →
      (Routes.runCancelHandler c t cenv ci cu).2 =
        ([Routes.RemoteCall.cancelIrn], c) := by
    intro t cenv ci cu hA hD
    rw [Routes.runCancelHandler_cached c t cenv ci cu hA hD,
      Routes.cancelStep3_calls_cache]
    rfl
  refine ⟨⟨?_, ?_, ?_⟩, ?_, ?_, ?_⟩
  · rw [hgen t1 env1 ie1 hA1 hD1]
  · rw [hgen t1 env1 ie1 hA1 hD1]
  · rw [hgen t2 env2 ie2 hA2 hD2]
  · rw [hcan t1 cenv1 ci1 cu1 hA1 hD1]
  · rw [hcan t1 cenv1 ci1 cu1 hA1 hD1]
  · rw [hcan t2 cenv2 ci2 cu2 hA2 hD2]

/-- C6 witness: a cache holding both valid credentials at time 0 issues
only the generate-IRN call. -/
theorem C6_witness :
    (Routes.runGenerateHandler "B2B"
      ⟨some "tok", some 1, some "at", some "sk", some "un", some 1⟩ 0
      ⟨⟨1, some "tok", none, none⟩, ⟨1, some "at", some "sk", some "un", none, none⟩,
       ⟨some "IRN123", some "qr", some "A1", none, none, none, none, none, none,
        none, none, none⟩⟩
      none).2.1 = [Routes.RemoteCall.generateIrn] :=
  (C6_cached_credentials_only_target_call "B2B"
    ⟨some "tok", some 1, some "at", some "sk", some "un", some 1⟩ 0 0
    ⟨⟨1, some "tok", none, none⟩, ⟨1, some "at", some "sk", some "un", none, none⟩,
     ⟨some "IRN123", some "qr", some "A1", none, none, none, none, none, none,
      none, none, none⟩⟩
    ⟨⟨1, some "tok", none, none⟩, ⟨1, some "at", some "sk", some "un", none, none⟩,
     ⟨some "IRN123", some "qr", some "A1", none, none, none, none, none, none,
      none, none, none⟩⟩
    none none
    ⟨⟨1, some "tok", none, none⟩, ⟨1, some "at", some "sk", some "un", none, none⟩,
     ⟨some "IRN123", some "2024-01-01"⟩⟩
    ⟨⟨1, some "tok", none, none⟩, ⟨1, some "at", some "sk", some "un", none, none⟩,
     ⟨some "IRN123", some "2024-01-01"⟩⟩
    none none none none
    (by decide) (by decide) (by decide) (by decide) (by decide)).1.1

/-- C10 (confirmed).  For a generate-IRN request with
`invoice_type === "NON BILLING"` the handler issues none of the three
remote calls and leaves the cache untouched, whatever the environment
or data-store outcome; on a successful insert the invoice row carries
none of the six IRN columns and the success response omits the `irn`
object. -/
theorem C10_nonBilling_skips_irn :
    (∀ (c : TokenCache.Cache) (now : Nat) (env : Routes.Env) (ie : Option String),
      (Routes.runGenerateHandler "NON BILLING" c now env ie).2.1 = [] ∧
      (Routes.runGenerateHandler "NON BILLING" c now env ie).2.2 = c) ∧
    (∀ (c : TokenCache.Cache) (now : Nat) (env : Routes.Env),
      Routes.runGenerateHandler "NON BILLING" c now env none =
        (Routes.GenHttpResponse.ok ⟨none, none, none, none, none, none⟩ none,
         [], c)) := by
  constructor
  · intro c now env ie
    cases ie <;> exact ⟨rfl, rfl⟩
  · intro c now env
    rfl
